import Mathlib

/-!
Verification of the rally-racing race transaction (`start_race` in `app.py`).

The embedding models the database tables (`TEAMS`, `CARS`, `RACE_EVENTS`,
`RACE_ENTRIES`, `RACE_RESULTS`) and the race transaction as pure functions
over rational numbers.  Numeric values (budgets, fees, speeds, times, prize
money) are modelled over `ℚ`; the Python implementation uses floats, whose
rounding is not modelled, but every structural property below is independent
of rounding.
-/

namespace Rally

/-- A row of the `CARS` table joined with its owning team
(`SELECT c.CAR_ID, c.SPEED, c.PIT_STOP_INTERVAL, c.PIT_STOP_DURATION, c.TEAM_ID ...`).
Name columns carry no racing logic and are omitted. -/
structure Car where
  carId : ℕ
  speed : ℚ
  pitStopInterval : ℚ
  pitStopDuration : ℚ
  teamId : ℕ
deriving DecidableEq, Repr

/-- A row of `RACE_ENTRIES`: `(RACE_ID, TEAM_ID, CAR_ID, TIME_TAKEN, FEE)`. -/
structure RaceEntry where
  raceId : ℕ
  teamId : ℕ
  carId : ℕ
  timeTaken : ℚ
  fee : ℚ
deriving DecidableEq, Repr

/-- A row of `RACE_RESULTS`: `(RACE_ID, TEAM_ID, CAR_ID, POSITION, PRIZE_MONEY)`. -/
structure RaceResult where
  raceId : ℕ
  teamId : ℕ
  carId : ℕ
  position : ℕ
  prizeMoney : ℚ
deriving DecidableEq, Repr

/-- The database state touched by `start_race`: team budgets (`TEAMS.BUDGET`,
indexed by `TEAM_ID`), the car roster, and the three race-scoped tables
(`RACE_EVENTS` is modelled as the list of distances in id order). -/
structure Db where
  budget : ℕ → ℚ
  cars : List Car
  events : List ℚ
  entries : List RaceEntry
  results : List RaceResult

/-- Step 2 of `start_race`: the SQL join selecting every car whose owning
team's budget satisfies `t.BUDGET >= fee`. -/
def eligibleCars (db : Db) (fee : ℚ) : List Car :=
  db.cars.filter fun c => fee ≤ db.budget c.teamId

/-- `pandas.Series.unique`: the distinct values of a column, keeping the
first occurrence of each value (used on `df['TEAM_ID']` in step 3). -/
def pandasUnique : List ℕ → List ℕ
  | [] => []
  | a :: l => a :: pandasUnique (l.filter fun x => x ≠ a)
termination_by l => l.length
decreasing_by
  simpa [Nat.lt_succ_iff] using List.length_filter_le (fun x => x ≠ a) l

/-- Point update of the budget column (`UPDATE TEAMS SET BUDGET = v WHERE TEAM_ID = t`). -/
def updateBudget (b : ℕ → ℚ) (t : ℕ) (v : ℚ) : ℕ → ℚ :=
  fun x => if x = t then v else b x

/-- Step 3 of `start_race`: for each team id in `df['TEAM_ID'].unique()`, run
`UPDATE TEAMS SET BUDGET = BUDGET - fee WHERE TEAM_ID = team_id`. -/
def collectFees (b : ℕ → ℚ) (fee : ℚ) (teamIds : List ℕ) : ℕ → ℚ :=
  teamIds.foldl (fun b t => updateBudget b t (b t - fee)) b

/-- Step 4 of `start_race`:
`TIME_TAKEN = (distance / SPEED * 3600) + (distance // PIT_STOP_INTERVAL * PIT_STOP_DURATION)`,
where `//` is Python floor division. -/
def timeTaken (distance : ℚ) (c : Car) : ℚ :=
  distance / c.speed * 3600 + (Rat.floor (distance / c.pitStopInterval) : ℚ) * c.pitStopDuration

/-- One `RACE_ENTRIES` row built from an eligible car. -/
def mkEntry (raceId : ℕ) (distance fee : ℚ) (c : Car) : RaceEntry :=
  { raceId := raceId, teamId := c.teamId, carId := c.carId,
    timeTaken := timeTaken distance c, fee := fee }

/-- Step 7 of the race algorithm: `total_pot = df_results['FEE'].sum()`. -/
def totalPot (entries : List RaceEntry) : ℚ :=
  (entries.map RaceEntry.fee).sum

/-- `prize_split = {1: 0.5, 2: 0.3, 3: 0.2}` with `.get(pos, 0)`. -/
def prizeSplitGet (pos : ℕ) : ℚ :=
  if pos = 1 then 0.5 else if pos = 2 then 0.3 else if pos = 3 then 0.2 else 0

/-- Index of the first occurrence of `t` in a list (0-based). -/
def firstIdxOf (t : ℚ) : List ℚ → ℕ
  | [] => 0
  | a :: l => if a = t then 0 else firstIdxOf t l + 1

/-- `pandas.Series.rank(method='min')` on the `TIME_TAKEN` column: sort the
values ascending; a value's rank is one plus the index of the first slot of
its tie group in the sorted order. -/
def pandasRankMin (times : List ℚ) (t : ℚ) : ℕ :=
  firstIdxOf t (List.insertionSort (· ≤ ·) times) + 1

/-- One `RACE_RESULTS` row: position from min-ranking the time column,
`PRIZE_MONEY = total_pot * prize_split.get(position, 0)`. -/
def mkResult (pot : ℚ) (times : List ℚ) (e : RaceEntry) : RaceResult :=
  { raceId := e.raceId, teamId := e.teamId, carId := e.carId,
    position := pandasRankMin times e.timeTaken,
    prizeMoney := pot * prizeSplitGet (pandasRankMin times e.timeTaken) }

/-- Step 6 of `start_race`: for every result row with `PRIZE_MONEY > 0`, run
`UPDATE TEAMS SET BUDGET = BUDGET + prize WHERE TEAM_ID = team_id`. -/
def creditPrizes (b : ℕ → ℚ) (rs : List RaceResult) : ℕ → ℚ :=
  rs.foldl (fun b r => if 0 < r.prizeMoney then updateBudget b r.teamId (b r.teamId + r.prizeMoney) else b) b

/-- The `RACE_ENTRIES` rows a race over `db` would insert. -/
def raceEntriesFor (db : Db) (distance fee : ℚ) : List RaceEntry :=
  (eligibleCars db fee).map (mkEntry (db.events.length + 1) distance fee)

/-- The `TIME_TAKEN` column of the new entries. -/
def raceTimesFor (db : Db) (distance fee : ℚ) : List ℚ :=
  (raceEntriesFor db distance fee).map RaceEntry.timeTaken

/-- The `RACE_RESULTS` rows a race over `db` would insert. -/
def raceResultsFor (db : Db) (distance fee : ℚ) : List RaceResult :=
  (raceEntriesFor db distance fee).map
    (mkResult (totalPot (raceEntriesFor db distance fee)) (raceTimesFor db distance fee))

/-- `start_race(distance, fee)`: create a race event, select eligible cars,
abort (raise, roll back every write, return `None`) when none is eligible;
otherwise deduct the fee once per distinct team, insert entries, rank, pay
prizes, and commit.  Returns the race id and the committed database state;
on the no-participants failure the state is returned unchanged (rollback). -/
def runRace (db : Db) (distance fee : ℚ) : Option ℕ × Db :=
  let raceId := db.events.length + 1
  let elig := eligibleCars db fee
  if elig.isEmpty then
    (none, db)
  else
    let b1 := collectFees db.budget fee (pandasUnique (elig.map Car.teamId))
    let newEntries := raceEntriesFor db distance fee
    let newResults := raceResultsFor db distance fee
    let b2 := creditPrizes b1 newResults
    (some raceId,
      { budget := b2,
        cars := db.cars,
        events := db.events ++ [distance],
        entries := db.entries ++ newEntries,
        results := db.results ++ newResults })

/-- Total amount actually deducted from team budgets in step 3:
the fee once per distinct team among eligible cars. -/
def feesCollected (db : Db) (fee : ℚ) : ℚ :=
  fee * ((pandasUnique ((eligibleCars db fee).map Car.teamId)).length : ℚ)

/-- Total prize money paid out by a race. -/
def totalPrize (rs : List RaceResult) : ℚ :=
  (rs.map RaceResult.prizeMoney).sum

/-! ### Sample databases used to instantiate the theorems on concrete data -/

/-- A sample roster: team 1 (budget 1000) owns cars 1 and 2, team 2
(budget 500) owns car 3, team 3 (budget 50) owns car 4. -/
def sampleDb : Db :=
  { budget := fun t => if t = 1 then 1000 else if t = 2 then 500 else if t = 3 then 50 else 0,
    cars := [ { carId := 1, speed := 100, pitStopInterval := 30, pitStopDuration := 10, teamId := 1 },
              { carId := 2, speed := 50, pitStopInterval := 25, pitStopDuration := 12, teamId := 1 },
              { carId := 3, speed := 200, pitStopInterval := 40, pitStopDuration := 5, teamId := 2 },
              { carId := 4, speed := 80, pitStopInterval := 20, pitStopDuration := 8, teamId := 3 } ],
    events := [], entries := [], results := [] }

/-- Three one-car teams whose race ends with two cars tied for second place. -/
def tieDb : Db :=
  { budget := fun t => if t ≤ 3 then 1000 else 0,
    cars := [ { carId := 1, speed := 100, pitStopInterval := 30, pitStopDuration := 10, teamId := 1 },
              { carId := 2, speed := 50, pitStopInterval := 25, pitStopDuration := 12, teamId := 2 },
              { carId := 3, speed := 50, pitStopInterval := 25, pitStopDuration := 12, teamId := 3 } ],
    events := [], entries := [], results := [] }

/-- A roster where no team can afford a fee of 100. -/
def poorDb : Db :=
  { budget := fun _ => 50,
    cars := [ { carId := 1, speed := 100, pitStopInterval := 30, pitStopDuration := 10, teamId := 1 } ],
    events := [], entries := [], results := [] }

/-- A roster where exactly one car can afford a fee of 100. -/
def soloDb : Db :=
  { budget := fun t => if t = 1 then 1000 else 0,
    cars := [ { carId := 1, speed := 100, pitStopInterval := 30, pitStopDuration := 10, teamId := 1 } ],
    events := [], entries := [], results := [] }

/-! ### Helper lemmas -/

theorem mem_pandasUnique {x : ℕ} : ∀ {l : List ℕ}, x ∈ pandasUnique l ↔ x ∈ l := by
  intro l
  induction l using pandasUnique.induct with
  | case1 => simp [pandasUnique]
  | case2 a l ih =>
    simp only [ne_eq, decide_not] at ih
    by_cases hx : x = a
    · subst hx; simp [pandasUnique]
    · simp [pandasUnique, hx, ih, List.mem_filter]

theorem nodup_pandasUnique : ∀ (l : List ℕ), (pandasUnique l).Nodup := by
  intro l
  induction l using pandasUnique.induct with
  | case1 => simp [pandasUnique]
  | case2 a l ih =>
    simp only [pandasUnique, List.nodup_cons]
    refine ⟨fun hmem => ?_, ih⟩
    rw [mem_pandasUnique] at hmem
    simp at hmem

theorem collectFees_cons (b : ℕ → ℚ) (fee : ℚ) (a : ℕ) (l : List ℕ) :
    collectFees b fee (a :: l) = collectFees (updateBudget b a (b a - fee)) fee l := rfl

theorem creditPrizes_cons (b : ℕ → ℚ) (r : RaceResult) (l : List RaceResult) :
    creditPrizes b (r :: l) =
      creditPrizes (if 0 < r.prizeMoney then updateBudget b r.teamId (b r.teamId + r.prizeMoney) else b) l := rfl

theorem collectFees_not_mem (fee : ℚ) (t : ℕ) :
    ∀ (ids : List ℕ) (b : ℕ → ℚ), t ∉ ids → collectFees b fee ids t = b t := by
  intro ids
  induction ids with
  | nil => intro b _; rfl
  | cons a l ih =>
    intro b ht
    simp only [List.mem_cons, not_or] at ht
    rw [collectFees_cons, ih _ ht.2]
    simp [updateBudget, ht.1]

theorem collectFees_mem (fee : ℚ) (t : ℕ) :
    ∀ (ids : List ℕ) (b : ℕ → ℚ), ids.Nodup → t ∈ ids →
      collectFees b fee ids t = b t - fee := by
  intro ids
  induction ids with
  | nil => intro b _ h; simp at h
  | cons a l ih =>
    intro b hnd ht
    simp only [List.nodup_cons] at hnd
    by_cases hta : t = a
    · subst hta
      rw [collectFees_cons, collectFees_not_mem fee t l _ hnd.1]
      simp [updateBudget]
    · rcases List.mem_cons.mp ht with h | h
      · exact absurd h hta
      · rw [collectFees_cons, ih _ hnd.2 h]
        simp [updateBudget, hta]

theorem creditPrizes_not_mem (t : ℕ) :
    ∀ (rs : List RaceResult) (b : ℕ → ℚ), t ∉ rs.map RaceResult.teamId →
      creditPrizes b rs t = b t := by
  intro rs
  induction rs with
  | nil => intro b _; rfl
  | cons r l ih =>
    intro b ht
    simp only [List.map_cons, List.mem_cons, not_or] at ht
    rw [creditPrizes_cons, ih _ ht.2]
    by_cases hp : 0 < r.prizeMoney <;> simp [hp, updateBudget, ht.1]

theorem firstIdxOf_sorted (t : ℚ) :
    ∀ (s : List ℚ), List.Sorted (· ≤ ·) s → t ∈ s →
      firstIdxOf t s = s.countP (fun x => x < t) := by
  intro s
  induction s with
  | nil => intro _ h; simp at h
  | cons a l ih =>
    intro hs ht
    rw [List.sorted_cons] at hs
    by_cases hat : a = t
    · subst hat
      have hzero : List.countP (fun x => decide (x < a)) l = 0 := by
        rw [List.countP_eq_zero]
        intro x hx
        simpa using not_lt.mpr (hs.1 x hx)
      simp [firstIdxOf, List.countP_cons, hzero]
    · have htl : t ∈ l := by
        rcases List.mem_cons.mp ht with h | h
        · exact absurd h.symm hat
        · exact h
      have halt : a < t := lt_of_le_of_ne (hs.1 t htl) hat
      simp [firstIdxOf, hat, List.countP_cons, halt, ih hs.2 htl]

theorem pandasRankMin_eq_countP (times : List ℚ) (t : ℚ) (ht : t ∈ times) :
    pandasRankMin times t = times.countP (fun x => x < t) + 1 := by
  unfold pandasRankMin
  have hperm := List.perm_insertionSort (· ≤ ·) times
  have hsorted := List.sorted_insertionSort (· ≤ ·) times
  rw [firstIdxOf_sorted t _ hsorted (hperm.mem_iff.mpr ht)]
  rw [hperm.countP_eq]

theorem totalPot_raceEntriesFor (db : Db) (distance fee : ℚ) :
    totalPot (raceEntriesFor db distance fee) = fee * ((eligibleCars db fee).length : ℚ) := by
  unfold totalPot raceEntriesFor
  rw [List.map_map]
  have h : (RaceEntry.fee ∘ mkEntry (db.events.length + 1) distance fee) = fun _ => fee := rfl
  rw [h, List.map_const', List.sum_replicate, nsmul_eq_mul]
  ring

theorem totalPrize_eq_split_counts (pot : ℚ) :
    ∀ (rs : List RaceResult),
      (∀ r ∈ rs, r.prizeMoney = pot * prizeSplitGet r.position) →
      totalPrize rs =
        pot * (0.5 * ((rs.countP fun r => r.position = 1) : ℚ)
             + 0.3 * ((rs.countP fun r => r.position = 2) : ℚ)
             + 0.2 * ((rs.countP fun r => r.position = 3) : ℚ)) := by
  intro rs
  induction rs with
  | nil => intro _; simp [totalPrize]
  | cons r l ih =>
    intro h
    have hr := h r (List.mem_cons_self r l)
    have hl := ih fun x hx => h x (List.mem_cons_of_mem r hx)
    simp only [totalPrize, List.map_cons, List.sum_cons] at hl ⊢
    rw [hr, hl, List.countP_cons, List.countP_cons, List.countP_cons]
    by_cases h1 : r.position = 1
    · simp only [h1, prizeSplitGet, if_pos rfl]
      norm_num; ring
    · by_cases h2 : r.position = 2
      · simp only [h2, prizeSplitGet]
        norm_num; ring
      · by_cases h3 : r.position = 3
        · simp only [h3, prizeSplitGet]
          norm_num [h1, h2]
          ring
        · simp only [prizeSplitGet, h1, h2, h3]
          norm_num

theorem prizeMoney_eq_pot_mul_split (db : Db) (distance fee : ℚ) :
    ∀ r ∈ raceResultsFor db distance fee,
      r.prizeMoney = totalPot (raceEntriesFor db distance fee) * prizeSplitGet r.position := by
  intro r hr
  rcases List.mem_map.mp hr with ⟨e, _, rfl⟩
  rfl



theorem totalPot_cons (e : RaceEntry) (es : List RaceEntry) :
    totalPot (e :: es) = e.fee + totalPot es := by
  simp [totalPot]

theorem totalPot_filter_team (rid : ℕ) (distance fee : ℚ) (t : ℕ) :
    ∀ (cs : List Car),
      totalPot ((cs.map (mkEntry rid distance fee)).filter fun e => e.teamId = t)
        = fee * (((cs.filter fun c => c.teamId = t).length : ℚ)) := by
  intro cs
  induction cs with
  | nil => simp [totalPot]
  | cons c l ih =>
    by_cases hc : c.teamId = t
    · simp [mkEntry, hc, totalPot_cons, ih]
      ring
    · simp [mkEntry, hc, totalPot_cons, ih]



/-- Claim C2: the prize pool sums the per-entry fee over all `RACE_ENTRIES`
rows, so it equals fee times the number of eligible cars; a team's
contribution to the pot is the fee once per eligible car it owns (twice for
a two-car team), even though step 3 deducts the fee only once per team. -/
theorem pot_counts_fee_per_entry (db : Db) (distance fee : ℚ) :
    totalPot (raceEntriesFor db distance fee)
        = fee * ((raceEntriesFor db distance fee).length : ℚ)
    ∧ (raceEntriesFor db distance fee).length = (eligibleCars db fee).length
    ∧ ∀ t : ℕ,
        totalPot ((raceEntriesFor db distance fee).filter fun e => e.teamId = t)
          = fee * (((eligibleCars db fee).filter fun c => c.teamId = t).length : ℚ) := by
  refine ⟨?_, ?_, ?_⟩
  · rw [totalPot_raceEntriesFor]
    simp [raceEntriesFor]
  · simp [raceEntriesFor]
  · intro t
    exact totalPot_filter_team _ _ _ _ _

/-- Claim C3: during fee collection the fee is deducted exactly once from the
budget of each distinct team owning at least one eligible car; a team with
several eligible cars pays once, not once per car. -/
theorem fee_deducted_once_per_eligible_team (db : Db) (fee : ℚ) (t : ℕ)
    (ht : t ∈ (eligibleCars db fee).map Car.teamId) :
    collectFees db.budget fee (pandasUnique ((eligibleCars db fee).map Car.teamId)) t
      = db.budget t - fee :=
  collectFees_mem fee t _ db.budget (nodup_pandasUnique _) (mem_pandasUnique.mpr ht)

theorem fee_deducted_once_witness :
    1 ∈ (eligibleCars sampleDb 100).map Car.teamId ∧
    collectFees sampleDb.budget 100 (pandasUnique ((eligibleCars sampleDb 100).map Car.teamId)) 1
      = sampleDb.budget 1 - 100 :=
  ⟨by norm_num [eligibleCars, sampleDb],
   fee_deducted_once_per_eligible_team sampleDb 100 1 (by norm_num [eligibleCars, sampleDb])⟩

/-- Claim C7: a car gets a `RACE_ENTRIES` row if and only if its owning
team's budget at the eligibility check is at least the fee; in particular a
car of a team with budget strictly below the fee never appears in any entry. -/
theorem participates_iff_budget_at_least_fee (db : Db) (distance fee : ℚ) (c : Car)
    (hc : c ∈ db.cars) (hnodup : (db.cars.map Car.carId).Nodup) :
    (∃ e ∈ raceEntriesFor db distance fee, e.carId = c.carId) ↔ fee ≤ db.budget c.teamId := by
  constructor
  · rintro ⟨e, he, heq⟩
    rcases List.mem_map.mp he with ⟨c', hc', rfl⟩
    have hceq : c'.carId = c.carId := heq
    have hc'mem : c' ∈ db.cars := List.mem_of_mem_filter hc'
    have hcc : c' = c := List.inj_on_of_nodup_map hnodup hc'mem hc hceq
    subst hcc
    have := List.mem_filter.mp hc'
    simpa using this.2
  · intro hb
    refine ⟨mkEntry (db.events.length + 1) distance fee c, ?_, rfl⟩
    exact List.mem_map.mpr ⟨c, List.mem_filter.mpr ⟨hc, by simpa using hb⟩, rfl⟩

theorem participates_iff_witness :
    ({ carId := 4, speed := 80, pitStopInterval := 20, pitStopDuration := 8, teamId := 3 } : Car) ∈ sampleDb.cars ∧
    (sampleDb.cars.map Car.carId).Nodup ∧
    ¬(∃ e ∈ raceEntriesFor sampleDb 100 100,
        e.carId = ({ carId := 4, speed := 80, pitStopInterval := 20, pitStopDuration := 8, teamId := 3 } : Car).carId) := by
  refine ⟨by norm_num [sampleDb], by norm_num [sampleDb], ?_⟩
  rw [participates_iff_budget_at_least_fee sampleDb 100 100 _ (by norm_num [sampleDb]) (by norm_num [sampleDb])]
  norm_num [sampleDb]

/-- Claim C8: when no car is eligible, the race aborts: the caller receives
no race id and the database state is returned unchanged — the `RACE_EVENTS`
row created in step 1 is rolled back and no team budget changes. -/
theorem no_eligible_participants_rolls_back (db : Db) (distance fee : ℚ)
    (h : eligibleCars db fee = []) :
    runRace db distance fee = (none, db) := by
  simp [runRace, h]

theorem no_eligible_rolls_back_witness :
    eligibleCars poorDb 100 = [] ∧ runRace poorDb 100 100 = (none, poorDb) :=
  ⟨by norm_num [eligibleCars, poorDb],
   no_eligible_participants_rolls_back poorDb 100 100 (by norm_num [eligibleCars, poorDb])⟩



/-- Claim C4: the entry at position 1 receives 50% of the pot, position 2
receives 30%, position 3 receives 20%, and all other positions receive 0;
when several entries share position 1 each one independently receives the
full 50% share, with no splitting. -/
theorem prize_is_split_fraction_of_pot (db : Db) (distance fee : ℚ) :
    (∀ r ∈ raceResultsFor db distance fee,
        r.prizeMoney = totalPot (raceEntriesFor db distance fee) *
          (if r.position = 1 then 0.5 else if r.position = 2 then 0.3
           else if r.position = 3 then 0.2 else 0)) ∧
    (∀ r₁ ∈ raceResultsFor db distance fee, ∀ r₂ ∈ raceResultsFor db distance fee,
        r₁.position = 1 → r₂.position = 1 →
        r₁.prizeMoney = totalPot (raceEntriesFor db distance fee) * 0.5 ∧
        r₂.prizeMoney = totalPot (raceEntriesFor db distance fee) * 0.5) := by
  have key := prizeMoney_eq_pot_mul_split db distance fee
  constructor
  · intro r hr
    rw [key r hr]
    rfl
  · intro r1 h1 r2 h2 hp1 hp2
    constructor
    · rw [key r1 h1, hp1]
      norm_num [prizeSplitGet]
    · rw [key r2 h2, hp2]
      norm_num [prizeSplitGet]

theorem prize_split_witness :
    (⟨1, 2, 3, 1, 150⟩ : RaceResult) ∈ raceResultsFor sampleDb 100 100 ∧
    (⟨1, 2, 3, 1, 150⟩ : RaceResult).prizeMoney
      = totalPot (raceEntriesFor sampleDb 100 100) *
        (if (⟨1, 2, 3, 1, 150⟩ : RaceResult).position = 1 then 0.5
         else if (⟨1, 2, 3, 1, 150⟩ : RaceResult).position = 2 then 0.3
         else if (⟨1, 2, 3, 1, 150⟩ : RaceResult).position = 3 then 0.2 else 0) := by
  have hmem : (⟨1, 2, 3, 1, 150⟩ : RaceResult) ∈ raceResultsFor sampleDb 100 100 := by
    norm_num [raceResultsFor, raceEntriesFor, raceTimesFor, eligibleCars, sampleDb, mkEntry,
      mkResult, timeTaken, totalPot, pandasRankMin, firstIdxOf, prizeSplitGet,
      List.insertionSort, List.orderedInsert, Rat.floor]
  exact ⟨hmem, (prize_is_split_fraction_of_pot sampleDb 100 100).1 _ hmem⟩

/-- Claim C5: positions follow min-ranking over ascending time-taken: each
result's position equals the number of entries with strictly smaller
time-taken plus one, and entries with equal times receive equal positions. -/
theorem position_is_min_rank (db : Db) (distance fee : ℚ) :
    (∀ r ∈ raceResultsFor db distance fee,
        ∃ e ∈ raceEntriesFor db distance fee, r.carId = e.carId ∧
          r.position = (raceTimesFor db distance fee).countP (fun x => x < e.timeTaken) + 1) ∧
    (∀ e₁ ∈ raceEntriesFor db distance fee, ∀ e₂ ∈ raceEntriesFor db distance fee,
        e₁.timeTaken = e₂.timeTaken →
          (mkResult (totalPot (raceEntriesFor db distance fee)) (raceTimesFor db distance fee) e₁).position
            = (mkResult (totalPot (raceEntriesFor db distance fee)) (raceTimesFor db distance fee) e₂).position) := by
  constructor
  · intro r hr
    rcases List.mem_map.mp hr with ⟨e, he, rfl⟩
    refine ⟨e, he, rfl, ?_⟩
    have hmem : e.timeTaken ∈ raceTimesFor db distance fee := List.mem_map.mpr ⟨e, he, rfl⟩
    exact pandasRankMin_eq_countP _ _ hmem
  · intro e1 h1 e2 h2 ht
    simp [mkResult, ht]

theorem position_min_rank_witness :
    (⟨1, 1, 1, 2, 90⟩ : RaceResult) ∈ raceResultsFor sampleDb 100 100 ∧
    (∃ e ∈ raceEntriesFor sampleDb 100 100, (⟨1, 1, 1, 2, 90⟩ : RaceResult).carId = e.carId ∧
        (⟨1, 1, 1, 2, 90⟩ : RaceResult).position
          = (raceTimesFor sampleDb 100 100).countP (fun x => x < e.timeTaken) + 1) := by
  have hmem : (⟨1, 1, 1, 2, 90⟩ : RaceResult) ∈ raceResultsFor sampleDb 100 100 := by
    norm_num [raceResultsFor, raceEntriesFor, raceTimesFor, eligibleCars, sampleDb, mkEntry,
      mkResult, timeTaken, totalPot, pandasRankMin, firstIdxOf, prizeSplitGet,
      List.insertionSort, List.orderedInsert, Rat.floor]
  exact ⟨hmem, (position_is_min_rank sampleDb 100 100).1 _ hmem⟩

/-- Claim C6: for every entry of a race whose cars have positive speed and
pit-stop interval, the recorded time-taken equals
`(distance / speed) * 3600 + floor(distance / pit_stop_interval) * pit_stop_duration`. -/
theorem time_taken_formula (db : Db) (distance fee : ℚ)
    (hspeed : ∀ c ∈ db.cars, 0 < c.speed)
    (hpit : ∀ c ∈ db.cars, 0 < c.pitStopInterval) :
    ∀ e ∈ raceEntriesFor db distance fee,
      ∃ c ∈ eligibleCars db fee, e.carId = c.carId ∧
        e.timeTaken = distance / c.speed * 3600
          + (⌊distance / c.pitStopInterval⌋ : ℚ) * c.pitStopDuration := by
  intro e he
  rcases List.mem_map.mp he with ⟨c, hc, rfl⟩
  exact ⟨c, hc, rfl, rfl⟩

theorem time_taken_formula_witness :
    (∀ c ∈ sampleDb.cars, 0 < c.speed) ∧ (∀ c ∈ sampleDb.cars, 0 < c.pitStopInterval) ∧
    (⟨1, 1, 1, 3630, 100⟩ : RaceEntry) ∈ raceEntriesFor sampleDb 100 100 ∧
    (∃ c ∈ eligibleCars sampleDb 100, (⟨1, 1, 1, 3630, 100⟩ : RaceEntry).carId = c.carId ∧
        (⟨1, 1, 1, 3630, 100⟩ : RaceEntry).timeTaken = 100 / c.speed * 3600
          + (⌊100 / c.pitStopInterval⌋ : ℚ) * c.pitStopDuration) := by
  have hs : ∀ c ∈ sampleDb.cars, 0 < c.speed := by norm_num [sampleDb]
  have hp : ∀ c ∈ sampleDb.cars, 0 < c.pitStopInterval := by norm_num [sampleDb]
  have hmem : (⟨1, 1, 1, 3630, 100⟩ : RaceEntry) ∈ raceEntriesFor sampleDb 100 100 := by
    norm_num [raceEntriesFor, eligibleCars, sampleDb, mkEntry, timeTaken, Rat.floor]
  exact ⟨hs, hp, hmem, time_taken_formula sampleDb 100 100 hs hp _ hmem⟩



theorem runRace_pos (db : Db) (distance fee : ℚ) (h : ¬(eligibleCars db fee).isEmpty = true) :
    runRace db distance fee
      = (some (db.events.length + 1),
         { budget := creditPrizes
             (collectFees db.budget fee (pandasUnique ((eligibleCars db fee).map Car.teamId)))
             (raceResultsFor db distance fee),
           cars := db.cars,
           events := db.events ++ [distance],
           entries := db.entries ++ raceEntriesFor db distance fee,
           results := db.results ++ raceResultsFor db distance fee }) := by
  simp [runRace, h]

/-- Claim C9: a team owning no eligible car (budget below the fee, or no
cars at all) keeps its budget unchanged by `run_race`; only teams owning at
least one eligible car are mutated. -/
theorem ineligible_team_budget_unchanged (db : Db) (distance fee : ℚ) (t : ℕ)
    (ht : ∀ c ∈ db.cars, c.teamId = t → db.budget c.teamId < fee) :
    (runRace db distance fee).2.budget t = db.budget t := by
  by_cases hempty : (eligibleCars db fee).isEmpty = true
  · simp [runRace, hempty]
  · have hnot : t ∉ (eligibleCars db fee).map Car.teamId := by
      intro hmem
      rcases List.mem_map.mp hmem with ⟨c, hc, hceq⟩
      have hcr : c ∈ db.cars := List.mem_of_mem_filter hc
      have hbud : fee ≤ db.budget c.teamId := by simpa using (List.mem_filter.mp hc).2
      exact absurd hbud (not_le.mpr (ht c hcr hceq))
    have hnotres : t ∉ (raceResultsFor db distance fee).map RaceResult.teamId := by
      intro hmem
      rcases List.mem_map.mp hmem with ⟨r, hr, hreq⟩
      rcases List.mem_map.mp hr with ⟨e, he, rfl⟩
      rcases List.mem_map.mp he with ⟨c, hc, rfl⟩
      exact hnot (List.mem_map.mpr ⟨c, hc, hreq⟩)
    rw [runRace_pos db distance fee hempty]
    show creditPrizes
        (collectFees db.budget fee (pandasUnique ((eligibleCars db fee).map Car.teamId)))
        (raceResultsFor db distance fee) t = db.budget t
    rw [creditPrizes_not_mem t _ _ hnotres]
    exact collectFees_not_mem fee t _ _ fun hmem => hnot (mem_pandasUnique.mp hmem)

theorem ineligible_team_unchanged_witness :
    (∀ c ∈ sampleDb.cars, c.teamId = 3 → sampleDb.budget c.teamId < 100) ∧
    (runRace sampleDb 100 100).2.budget 3 = sampleDb.budget 3 :=
  ⟨by norm_num [sampleDb],
   ineligible_team_budget_unchanged sampleDb 100 100 3 (by norm_num [sampleDb])⟩



/-- Claim C10: a race with exactly one eligible car and fee `f > 0` gives
that car position 1 and prize `0.5 * f`, so its team's budget changes by a
net of `-f / 2`. -/
theorem single_car_race_halves_fee (db : Db) (distance fee : ℚ) (c : Car)
    (helig : eligibleCars db fee = [c]) (hfee : 0 < fee) :
    (runRace db distance fee).1 = some (db.events.length + 1) ∧
    raceResultsFor db distance fee
      = [{ raceId := db.events.length + 1, teamId := c.teamId, carId := c.carId,
           position := 1, prizeMoney := fee * 0.5 }] ∧
    (runRace db distance fee).2.budget c.teamId = db.budget c.teamId - fee / 2 := by
  have hnonempty : ¬(eligibleCars db fee).isEmpty = true := by simp [helig]
  have hentries : raceEntriesFor db distance fee = [mkEntry (db.events.length + 1) distance fee c] := by
    simp [raceEntriesFor, helig]
  have htimes : raceTimesFor db distance fee = [timeTaken distance c] := by
    simp [raceTimesFor, hentries, mkEntry]
  have hpot : totalPot (raceEntriesFor db distance fee) = fee := by
    simp [hentries, totalPot, mkEntry]
  have hrank : pandasRankMin [timeTaken distance c] (timeTaken distance c) = 1 := by
    simp [pandasRankMin, List.insertionSort, List.orderedInsert, firstIdxOf]
  have hresults : raceResultsFor db distance fee
      = [{ raceId := db.events.length + 1, teamId := c.teamId, carId := c.carId,
           position := 1, prizeMoney := fee * 0.5 }] := by
    rw [raceResultsFor, hpot, htimes, hentries]
    simp [mkResult, mkEntry, hrank, prizeSplitGet]
  have hids : pandasUnique ((eligibleCars db fee).map Car.teamId) = [c.teamId] := by
    rw [helig]
    simp [pandasUnique]
  refine ⟨?_, hresults, ?_⟩
  · rw [runRace_pos db distance fee hnonempty]
  · rw [runRace_pos db distance fee hnonempty]
    show creditPrizes
        (collectFees db.budget fee (pandasUnique ((eligibleCars db fee).map Car.teamId)))
        (raceResultsFor db distance fee) c.teamId = db.budget c.teamId - fee / 2
    rw [hids, hresults, collectFees_cons]
    rw [creditPrizes_cons]
    have hpos : (0:ℚ) < fee * 0.5 := by positivity
    rw [if_pos hpos]
    show updateBudget (collectFees (updateBudget db.budget c.teamId (db.budget c.teamId - fee)) fee [])
        c.teamId
        ((collectFees (updateBudget db.budget c.teamId (db.budget c.teamId - fee)) fee []) c.teamId + fee * 0.5)
        c.teamId = db.budget c.teamId - fee / 2
    simp [collectFees, updateBudget]
    ring

theorem single_car_race_witness :
    eligibleCars soloDb 100
        = [{ carId := 1, speed := 100, pitStopInterval := 30, pitStopDuration := 10, teamId := 1 }] ∧
    (0:ℚ) < 100 ∧
    ((runRace soloDb 100 100).1 = some (soloDb.events.length + 1) ∧
      raceResultsFor soloDb 100 100
        = [{ raceId := soloDb.events.length + 1, teamId := 1, carId := 1,
             position := 1, prizeMoney := 100 * 0.5 }] ∧
      (runRace soloDb 100 100).2.budget 1 = soloDb.budget 1 - 100 / 2) :=
  ⟨by norm_num [eligibleCars, soloDb], by norm_num,
   single_car_race_halves_fee soloDb 100 100
     { carId := 1, speed := 100, pitStopInterval := 30, pitStopDuration := 10, teamId := 1 }
     (by norm_num [eligibleCars, soloDb]) (by norm_num)⟩



/-- Claim C1 counterexample: in a three-team race over `tieDb` with fee 10,
only one entry holds position 1 (no tie at the top), the fees collected and
the pot are both 30, yet the prize money paid out is 33 — the pot is
over-distributed by a tie at position 2, which the claim's only stated
exception (a tie at position 1) does not cover. -/
theorem payout_exceeds_fees_without_tie_at_position_one :
    eligibleCars tieDb 10 ≠ [] ∧
    ((raceResultsFor tieDb 100 10).countP fun r => r.position = 1) = 1 ∧
    feesCollected tieDb 10 = 30 ∧
    totalPot (raceEntriesFor tieDb 100 10) = 30 ∧
    totalPrize (raceResultsFor tieDb 100 10) = 33 ∧
    ¬ totalPrize (raceResultsFor tieDb 100 10) ≤ feesCollected tieDb 10 := by
  norm_num [tieDb, totalPrize, feesCollected, totalPot, raceResultsFor, raceEntriesFor,
    raceTimesFor, eligibleCars, mkEntry, mkResult, timeTaken, pandasUnique, pandasRankMin,
    firstIdxOf, prizeSplitGet, List.insertionSort, List.orderedInsert, Rat.floor]
  exact List.cons_ne_nil _ _

/-- Claim C1 (amended): for every race with at least one eligible team and a
non-negative fee, the total prize money paid out is at most the pot (the
per-entry fees collected into `RACE_ENTRIES`), provided no two entries share
any of the paying positions 1, 2 or 3; a tie at any paying position — not
only at position 1 — can over-distribute the pot. -/
theorem payout_le_pot_of_no_podium_ties (db : Db) (distance fee : ℚ)
    (hfee : 0 ≤ fee)
    (hne : eligibleCars db fee ≠ [])
    (h1 : ((raceResultsFor db distance fee).countP fun r => r.position = 1) ≤ 1)
    (h2 : ((raceResultsFor db distance fee).countP fun r => r.position = 2) ≤ 1)
    (h3 : ((raceResultsFor db distance fee).countP fun r => r.position = 3) ≤ 1) :
    totalPrize (raceResultsFor db distance fee) ≤ totalPot (raceEntriesFor db distance fee) := by
  have hpot : 0 ≤ totalPot (raceEntriesFor db distance fee) := by
    rw [totalPot_raceEntriesFor]
    exact mul_nonneg hfee (by positivity)
  have hsum := totalPrize_eq_split_counts (totalPot (raceEntriesFor db distance fee))
    (raceResultsFor db distance fee) (prizeMoney_eq_pot_mul_split db distance fee)
  rw [hsum]
  have hc1 : (((raceResultsFor db distance fee).countP fun r => r.position = 1 : ℕ) : ℚ) ≤ 1 := by
    exact_mod_cast h1
  have hc2 : (((raceResultsFor db distance fee).countP fun r => r.position = 2 : ℕ) : ℚ) ≤ 1 := by
    exact_mod_cast h2
  have hc3 : (((raceResultsFor db distance fee).countP fun r => r.position = 3 : ℕ) : ℚ) ≤ 1 := by
    exact_mod_cast h3
  have hn1 : (0:ℚ) ≤ (((raceResultsFor db distance fee).countP fun r => r.position = 1 : ℕ) : ℚ) := by
    positivity
  have hn2 : (0:ℚ) ≤ (((raceResultsFor db distance fee).countP fun r => r.position = 2 : ℕ) : ℚ) := by
    positivity
  have hn3 : (0:ℚ) ≤ (((raceResultsFor db distance fee).countP fun r => r.position = 3 : ℕ) : ℚ) := by
    positivity
  have hle : (0.5 * (((raceResultsFor db distance fee).countP fun r => r.position = 1 : ℕ) : ℚ)
      + 0.3 * (((raceResultsFor db distance fee).countP fun r => r.position = 2 : ℕ) : ℚ)
      + 0.2 * (((raceResultsFor db distance fee).countP fun r => r.position = 3 : ℕ) : ℚ)) ≤ 1 := by
    linarith
  exact mul_le_of_le_one_right hpot hle

theorem payout_le_pot_witness :
    (0:ℚ) ≤ 100 ∧
    eligibleCars sampleDb 100 ≠ [] ∧
    ((raceResultsFor sampleDb 100 100).countP fun r => r.position = 1) ≤ 1 ∧
    ((raceResultsFor sampleDb 100 100).countP fun r => r.position = 2) ≤ 1 ∧
    ((raceResultsFor sampleDb 100 100).countP fun r => r.position = 3) ≤ 1 ∧
    totalPrize (raceResultsFor sampleDb 100 100) ≤ totalPot (raceEntriesFor sampleDb 100 100) := by
  have hne : eligibleCars sampleDb 100 ≠ [] := by
    norm_num [eligibleCars, sampleDb]
    exact List.cons_ne_nil _ _
  have h1 : ((raceResultsFor sampleDb 100 100).countP fun r => r.position = 1) ≤ 1 := by
    norm_num [sampleDb, raceResultsFor, raceEntriesFor, raceTimesFor, eligibleCars, mkEntry,
      mkResult, timeTaken, totalPot, pandasRankMin, firstIdxOf, prizeSplitGet,
      List.insertionSort, List.orderedInsert, Rat.floor]
  have h2 : ((raceResultsFor sampleDb 100 100).countP fun r => r.position = 2) ≤ 1 := by
    norm_num [sampleDb, raceResultsFor, raceEntriesFor, raceTimesFor, eligibleCars, mkEntry,
      mkResult, timeTaken, totalPot, pandasRankMin, firstIdxOf, prizeSplitGet,
      List.insertionSort, List.orderedInsert, Rat.floor]
  have h3 : ((raceResultsFor sampleDb 100 100).countP fun r => r.position = 3) ≤ 1 := by
    norm_num [sampleDb, raceResultsFor, raceEntriesFor, raceTimesFor, eligibleCars, mkEntry,
      mkResult, timeTaken, totalPot, pandasRankMin, firstIdxOf, prizeSplitGet,
      List.insertionSort, List.orderedInsert, Rat.floor]
  exact ⟨by norm_num, hne, h1, h2, h3,
    payout_le_pot_of_no_podium_ties sampleDb 100 100 (by norm_num) hne h1 h2 h3⟩

end Rally
